import Mathlib

/-!
Verification of the firebolt-python-sdk connection and cursor layer.

The definitions below shallowly embed `src/firebolt/async_db/connection.py`
(the `Connection` class, its `aclose`/`cursor` methods and the module-level
`connect` function).  External collaborators (`_get_system_engine_url`,
`_get_engine_url_status_db`, `fix_url_schema`, the HTTP client) are modelled
as parameters, matching the spec's treatment of them as external interfaces.
Python exceptions are modelled with explicit error values; mutable object
state is modelled by explicit state passing.
-/

/-- Error taxonomy of `firebolt.utils.exception` restricted to the errors the
embedded code can raise.  `other` stands for any error raised by an external
collaborator (for example an engine-resolution failure), and
`assertionError` for a failed Python `assert`. -/
inductive FbError where
  | configurationError (msg : String)
  | connectionClosedError (msg : String)
  | engineNotRunning (engineName : String)
  | interfaceError (msg : String)
  | operationalError (msg : String)
  | assertionError (msg : String)
  | other (msg : String)
deriving DecidableEq, Repr

/-- Tests whether an error value is an `InterfaceError`. -/
def FbError.isInterfaceError : FbError → Bool
  | .interfaceError _ => true
  | _ => false

/-- Connection-level view of a cursor, as `Connection` in
`async_db/connection.py` sees it: the client it is bound to (modelled as an
abstract identifier, since `Cursor(client=self._client, ...)` shares the
connection's client object) and its closed flag.  The internals of
`Cursor` live in `async_db/cursor.py`, which only exposes an idempotent
`close` to the connection. -/
structure Cursor where
  client : Nat
  closed : Bool
deriving DecidableEq, Repr

/-- Modelled from the spec: `Cursor.close` (from `async_db/cursor.py`, not
under `src/`) is "idempotent; releases the current and pending ResultSets,
transitions to CLOSED, deregisters from the owning Connection" and "does not
error if already closed".  Here only the CLOSED transition on the cursor
object itself; the deregistration is visible in `Conn.aclose` below, where
the connection's registered list is emptied by the cursors closing
themselves. -/
def Cursor.close (c : Cursor) : Cursor :=
  if c.closed then c else { c with closed := true }

/-- State of a `Connection` object (`async_db/connection.py`, class
`Connection`): `engine_url`, `database`, the abstract identity of its
`_client`, the registered `_cursors`, whether `_client.aclose()` has run,
the `_is_closed` flag, and the optional `_system_engine_connection`.
Recursive because a connection owns its system connection. -/
inductive Conn where
  | mk (engine_url : String) (database : Option String) (client : Nat)
      (cursors : List Cursor) (clientClosed : Bool) (is_closed : Bool)
      (system_engine_connection : Option Conn)

/-- The `engine_url` field of a connection. -/
def Conn.engine_url : Conn → String
  | .mk u _ _ _ _ _ _ => u

/-- The `database` field of a connection. -/
def Conn.database : Conn → Option String
  | .mk _ db _ _ _ _ _ => db

/-- The abstract identity of the connection's `_client`. -/
def Conn.client : Conn → Nat
  | .mk _ _ cl _ _ _ _ => cl

/-- The `_cursors` list of a connection. -/
def Conn.cursors : Conn → List Cursor
  | .mk _ _ _ cs _ _ _ => cs

/-- Whether `_client.aclose()` has been called (the transport is closed). -/
def Conn.clientClosed : Conn → Bool
  | .mk _ _ _ _ cc _ _ => cc

/-- The `_is_closed` flag of a connection. -/
def Conn.is_closed : Conn → Bool
  | .mk _ _ _ _ _ ic _ => ic

/-- The `_system_engine_connection` field of a connection. -/
def Conn.system_engine_connection : Conn → Option Conn
  | .mk _ _ _ _ _ _ sys => sys

/-- State transformation of `Connection.aclose`
(`async_db/connection.py` lines 157-174): if already closed, return; else
close every registered cursor (each deregisters itself, emptying
`_cursors`), close the client, set `_is_closed`, then recursively close the
system engine connection if present. -/
def Conn.acloseState : Conn → Conn
  | .mk u db cl cs cc ic sys =>
    if ic then .mk u db cl cs cc ic sys
    else
      .mk u db cl [] true true
        (match sys with
          | none => none
          | some s => some s.acloseState)

/-- `Connection.aclose` together with the cursor objects it closed, as an
external holder of those cursors observes them (the loop
`for c in cursors: c.close()` over the copy `self._cursors[:]`).  When the
connection is already closed the method returns immediately and no cursor
is touched. -/
def Conn.aclose (c : Conn) : Conn × List Cursor :=
  if c.is_closed then (c, [])
  else (c.acloseState, c.cursors.map Cursor.close)

/-- `Connection.cursor` (`async_db/connection.py` lines 143-149): raises
`ConnectionClosedError` when closed, otherwise builds a cursor bound to
`self._client`, appends it to `self._cursors` and returns it. -/
def Conn.cursor (c : Conn) : Except FbError (Cursor × Conn) :=
  if c.is_closed then
    .error (.connectionClosedError "Unable to create cursor: connection closed.")
  else
    let cur : Cursor := { client := c.client, closed := false }
    .ok (cur, .mk c.engine_url c.database c.client (c.cursors ++ [cur])
      c.clientClosed c.is_closed c.system_engine_connection)

/-- Arguments of the module-level `connect` function.  `auth` is an `Auth`
object (opaque, only its presence matters for the `not value` check);
`account_name` is an optional string, where Python's `not value` is true
for both `None` and the empty string. -/
structure ConnectArgs where
  auth : Option Nat
  account_name : Option String
  database : Option String
  engine_name : Option String
  api_endpoint : String

/-- Python truthiness check `not value` on an optional string: true for
`None` and for the empty string. -/
def strFalsy : Option String → Bool
  | none => true
  | some s => s = ""

/-- External collaborators used by `connect`:
`fix_url_schema` (from `firebolt.utils.util`), `_get_system_engine_url` and
`_get_engine_url_status_db` (from `async_db/util.py`), all outside the
embedded core, per the spec's external-interface section.  The engine
resolution returns `(engine_url, status, attached_database)`, where
`engine_url` may be absent (the source guards it with an `assert`). -/
structure Env where
  fix_url_schema : String → String
  get_system_engine_url : Except FbError String
  get_engine_url_status_db : String → Except FbError (Option String × String × String)

/-- Result of `connect`: a connection, or an error paired with the state of
the system engine connection at the moment the error propagates (absent when
the error was raised before the system connection was created). -/
inductive ConnectResult where
  | ok (c : Conn)
  | err (e : FbError) (system : Option Conn)

/-- `connect` (`async_db/connection.py` lines 182-263).  Client identities:
the system connection's client is `0`, the user-engine connection's client
is `1`.  The bare `except:` around the engine-name branch closes the system
connection before re-raising, which the model expresses by pairing each
error raised after the system connection exists with
`sysConn.acloseState`. -/
def connect (args : ConnectArgs) (env : Env) : ConnectResult :=
  if args.auth.isNone then
    .err (.configurationError "auth is required to connect.") none
  else if strFalsy args.account_name then
    .err (.configurationError "account_name is required to connect.") none
  else
    match env.get_system_engine_url with
    | .error e => .err e none
    | .ok rawUrl =>
      let sysConn : Conn :=
        .mk (env.fix_url_schema rawUrl) args.database 0 [] false false none
      if strFalsy args.engine_name then .ok sysConn
      else
        match args.engine_name with
        | none => .ok sysConn
        | some en =>
          match env.get_engine_url_status_db en with
          | .error e => .err e (some sysConn.acloseState)
          | .ok (engineUrl, status, attachedDb) =>
            if status ≠ "Running" then
              .err (.engineNotRunning en) (some sysConn.acloseState)
            else
              match args.database with
              | some db =>
                if db ≠ attachedDb then
                  .err (.interfaceError ("Engine " ++ en ++ " is not attached to "
                    ++ db ++ ", but to " ++ attachedDb)) (some sysConn.acloseState)
                else
                  match engineUrl with
                  | none =>
                    .err (.assertionError "engine_url is not None")
                      (some sysConn.acloseState)
                  | some eu =>
                    .ok (.mk (env.fix_url_schema eu) (some db) 1 [] false false
                      (some sysConn))
              | none =>
                match engineUrl with
                | none =>
                  .err (.assertionError "engine_url is not None")
                    (some sysConn.acloseState)
                | some eu =>
                  .ok (.mk (env.fix_url_schema eu) (some attachedDb) 1 [] false false
                    (some sysConn))

/-- A result-set column: name and wire type string, as in the `meta` entries
of a query response. -/
structure Column where
  name : String
  typeStr : String
deriving DecidableEq, Repr

/-- A row is an ordered sequence of wire cell values (cell conversion is out
of scope for the claims below, so cells stay as wire strings). -/
abbrev Row := List String

/-- Modelled from the spec: the ResultSet produced by the Response Parser
(`async_db/cursor.py` and `async_db/_types.py` are not under `src/`):
ordered columns, ordered rows and the server-authoritative `row_count`,
where `-1` means "not a row-returning statement" and `0` a row-returning
statement with zero matches. -/
structure ResultSet where
  columns : List Column
  rows : List Row
  row_count : Int
deriving DecidableEq, Repr

/-- A raw query response body `{meta, data, rows}`; `meta` and `data` are
absent for a response carrying no result data. -/
structure QueryResponse where
  meta : Option (List Column)
  data : Option (List Row)
  rows : Int
deriving DecidableEq, Repr

/-- Modelled from the spec: row-count reconciliation of the Response Parser
(not under `src/`): a response carrying no `data`/`meta` (equivalently
`rows: -1`) yields a ResultSet with `row_count = -1` and no columns; a
response with `meta` and `data` present yields a ResultSet with columns
populated from `meta`, even when `rows` is `0`. -/
def parseResponse (r : QueryResponse) : ResultSet :=
  match r.meta, r.data with
  | some m, some d => { columns := m, rows := d, row_count := r.rows }
  | _, _ => { columns := [], rows := [], row_count := -1 }

/-- Modelled from the spec: the execution-level state of a Cursor (from
`async_db/cursor.py`, not under `src/`): zero or one current ResultSet, the
queue of pending ResultSets from a multi-statement batch, and the
session's accumulated `SET` parameters. -/
structure SpecCursor where
  current : Option ResultSet
  pending : List ResultSet
  set_parameters : List (String × String)
deriving DecidableEq, Repr

/-- The `description` attribute of a cursor: absent when the current result
set has no columns (non-row-returning statement), otherwise the column
list. -/
def SpecCursor.description (c : SpecCursor) : Option (List Column) :=
  match c.current with
  | none => none
  | some rs => if rs.columns.isEmpty then none else some rs.columns

/-- The `rowcount` attribute of a cursor: `-1` with no current result set,
otherwise the current set's `row_count`. -/
def SpecCursor.rowcount (c : SpecCursor) : Int :=
  match c.current with
  | none => -1
  | some rs => rs.row_count

/-- Modelled from the spec: `execute` over a batch whose server responses
have already been parsed into ResultSets — "Multiple statements in one call
produce a queue of ResultSets; the first becomes current, the rest remain
pending for `nextset()`". -/
def SpecCursor.executeBatch (c : SpecCursor) (results : List ResultSet) : SpecCursor :=
  match results with
  | [] => c
  | rs :: rest => { c with current := some rs, pending := rest }

/-- Modelled from the spec: `nextset` — "advances to the next pending
ResultSet, making it current; returns `None`/falsy sentinel when no pending
ResultSet exists (distinguish from `False`, which is unused)". -/
def SpecCursor.nextset (c : SpecCursor) : Option Bool × SpecCursor :=
  match c.pending with
  | [] => (none, c)
  | rs :: rest => (some true, { c with current := some rs, pending := rest })

/-- Modelled from the spec: execution of a single `SET key = value`
statement — the statement is always forwarded to the server for validation;
on acceptance the pair is recorded in `set_parameters` and the statement
behaves as non-row-returning (`rowcount = -1`, no current set); on
rejection an `OperationalError` is raised and `set_parameters` is left
unmodified.  The server verdict is the external parameter
`serverAccepts`. -/
def SpecCursor.executeSet (c : SpecCursor) (key value : String)
    (serverAccepts : Bool) : Except FbError Unit × SpecCursor :=
  if serverAccepts then
    (.ok (), { c with
      set_parameters := c.set_parameters ++ [(key, value)]
      current := none
      pending := [] })
  else
    (.error (.operationalError ("SET " ++ key ++ " = " ++ value
      ++ " was rejected by the server")), c)

/-- Closing a connection always leaves the `_is_closed` flag set. -/
theorem Conn.acloseState_is_closed (c : Conn) : c.acloseState.is_closed = true := by
  cases c with
  | mk u db cl cs cc ic sys =>
    rw [Conn.acloseState.eq_def]
    dsimp only
    split
    · next h => simp [Conn.is_closed, h]
    · simp [Conn.is_closed]

/-- Closing a cursor always leaves its closed flag set. -/
theorem Cursor.close_closed (k : Cursor) : (Cursor.close k).closed = true := by
  unfold Cursor.close
  split
  · next h => exact h
  · rfl

/-- Explicit form of `acloseState` on an open connection: cursors emptied,
client closed, `_is_closed` set, system connection recursively closed. -/
theorem Conn.acloseState_eq_of_open (c : Conn) (h : c.is_closed = false) :
    c.acloseState = .mk c.engine_url c.database c.client [] true true
      (Option.map Conn.acloseState c.system_engine_connection) := by
  cases c with
  | mk u db cl cs cc ic sys =>
    simp only [Conn.is_closed] at h
    rw [Conn.acloseState.eq_def]
    dsimp only
    rw [if_neg (by simp [h])]
    cases sys <;>
      simp [Conn.engine_url, Conn.database, Conn.client,
        Conn.system_engine_connection, Option.map]

/-- C4: Connection close is idempotent: closing twice (and closing cursors
twice) never raises (the operations are total, and a second close is the
identity step); the first close closes every registered cursor, closes the
transport, marks the connection closed, then closes the internal system
connection if one exists, leaving zero registered cursors; any close after
the closed flag is observed true is a no-op. -/
theorem connection_close_idempotent (c : Conn) (k : Cursor) :
    ((c.aclose).1).aclose = ((c.aclose).1, []) ∧
    Cursor.close (Cursor.close k) = Cursor.close k ∧
    ((c.aclose).2).all (fun x => x.closed) = true ∧
    (c.is_closed = false →
      ((c.aclose).1.is_closed = true ∧ (c.aclose).1.clientClosed = true ∧
        (c.aclose).1.cursors = [] ∧ (c.aclose).2 = c.cursors.map Cursor.close ∧
        ∀ s, (c.aclose).1.system_engine_connection = some s →
          s.is_closed = true)) ∧
    (c.is_closed = true → c.aclose = (c, [])) := by
  refine ⟨?_, ?_, ?_, ?_, ?_⟩
  · by_cases h : c.is_closed = true
    · simp [Conn.aclose, h]
    · simp only [Bool.not_eq_true] at h
      simp [Conn.aclose, h, Conn.acloseState_is_closed]
  · unfold Cursor.close
    by_cases h : k.closed = true <;> simp [h]
  · by_cases h : c.is_closed = true
    · simp [Conn.aclose, h]
    · simp only [Bool.not_eq_true] at h
      simp only [Conn.aclose, h, Bool.false_eq_true, if_false, List.all_eq_true]
      intro x hx
      simp only [List.mem_map] at hx
      obtain ⟨y, _, hy⟩ := hx
      rw [← hy]
      exact Cursor.close_closed y
  · intro h
    simp only [Conn.aclose, h, Bool.false_eq_true, if_false]
    rw [Conn.acloseState_eq_of_open c h]
    simp only [Conn.is_closed, Conn.clientClosed, Conn.cursors,
      Conn.system_engine_connection, Option.map_eq_some', true_and, and_true,
      eq_self_iff_true]
    rintro s ⟨s0, _, hs0⟩
    rw [← hs0]
    exact Conn.acloseState_is_closed s0
  · intro h
    simp [Conn.aclose, h]

/-- An open connection with two registered cursors and a system connection,
used to exercise the close path. -/
def connOpenTwoCursors : Conn :=
  .mk "https://engine.example" (some "db") 7
    [{ client := 7, closed := false }, { client := 7, closed := false }]
    false false
    (some (.mk "https://system.example" (some "db") 0 [] false false none))

/-- C4 witness: the close path evaluated on a concrete open connection with
two cursors and a system connection. -/
theorem connection_close_idempotent_witness :
    connOpenTwoCursors.is_closed = false ∧
    ((connOpenTwoCursors.aclose).1.is_closed = true ∧
      (connOpenTwoCursors.aclose).1.clientClosed = true ∧
      (connOpenTwoCursors.aclose).1.cursors = [] ∧
      (connOpenTwoCursors.aclose).2 =
        connOpenTwoCursors.cursors.map Cursor.close ∧
      ∀ s, (connOpenTwoCursors.aclose).1.system_engine_connection = some s →
        s.is_closed = true) ∧
    ((connOpenTwoCursors.aclose).1).aclose = ((connOpenTwoCursors.aclose).1, []) :=
  ⟨rfl, (connection_close_idempotent connOpenTwoCursors ⟨7, false⟩).2.2.2.1 rfl,
    (connection_close_idempotent connOpenTwoCursors ⟨7, false⟩).1⟩
/-- C8: if the auth argument or the account_name argument is absent,
`connect` raises a `ConfigurationError` naming the missing argument and
performs no further connection setup (no system connection is created). -/
theorem connect_requires_auth_and_account (args : ConnectArgs) (env : Env)
    (h : args.auth = none ∨ args.account_name = none) :
    ∃ nm, connect args env =
        .err (.configurationError (nm ++ " is required to connect.")) none ∧
      ((nm = "auth" ∧ args.auth = none) ∨
        (nm = "account_name" ∧ args.account_name = none)) := by
  by_cases ha : args.auth = none
  · exact ⟨"auth", by simp [connect, ha], Or.inl ⟨rfl, ha⟩⟩
  · have hacc : args.account_name = none := h.resolve_left ha
    refine ⟨"account_name", ?_, Or.inr ⟨rfl, hacc⟩⟩
    simp [connect, Option.isNone_iff_eq_none, ha, strFalsy, hacc]

/-- Arguments with no auth supplied. -/
def argsNoAuth : ConnectArgs :=
  { auth := none, account_name := some "my_account", database := none
    engine_name := none, api_endpoint := "api.example" }

/-- An environment in which every external resolution succeeds and the
resolved engine is running. -/
def envRunning : Env :=
  { fix_url_schema := fun s => s
    get_system_engine_url := .ok "https://system.example"
    get_engine_url_status_db := fun _ =>
      .ok (some "https://engine.example", "Running", "attached_db") }

/-- C8 witness: connecting without auth fails with the configuration error
naming auth. -/
theorem connect_requires_auth_and_account_witness :
    ∃ nm, connect argsNoAuth envRunning =
        .err (.configurationError (nm ++ " is required to connect.")) none ∧
      ((nm = "auth" ∧ argsNoAuth.auth = none) ∨
        (nm = "account_name" ∧ argsNoAuth.account_name = none)) :=
  connect_requires_auth_and_account argsNoAuth envRunning (Or.inl rfl)

/-- C9: calling `cursor()` on a closed connection raises
`ConnectionClosedError`; on an open connection it returns a new open cursor
bound to the connection's client and appends it to the connection's
registered cursor list. -/
theorem cursor_closed_check_and_registration (c : Conn) :
    (c.is_closed = true →
      c.cursor = .error
        (.connectionClosedError "Unable to create cursor: connection closed.")) ∧
    (c.is_closed = false →
      ∃ cur c2, c.cursor = .ok (cur, c2) ∧ cur.client = c.client ∧
        cur.closed = false ∧ c2.cursors = c.cursors ++ [cur]) := by
  constructor
  · intro h
    simp [Conn.cursor, h]
  · intro h
    refine ⟨{ client := c.client, closed := false },
      .mk c.engine_url c.database c.client
        (c.cursors ++ [{ client := c.client, closed := false }])
        c.clientClosed c.is_closed c.system_engine_connection, ?_, rfl, rfl, ?_⟩
    · simp [Conn.cursor, h]
    · simp [Conn.cursors]

/-- A closed connection used to exercise the closed-cursor check. -/
def connClosedNoCursors : Conn :=
  .mk "https://engine.example" (some "db") 7 [] true true none

/-- An open connection with no registered cursors. -/
def connOpenNoCursors : Conn :=
  .mk "https://engine.example" (some "db") 7 [] false false none

/-- C9 witness: cursor creation evaluated on a concrete closed connection
and a concrete open connection. -/
theorem cursor_closed_check_and_registration_witness :
    (connClosedNoCursors.cursor = .error
      (.connectionClosedError "Unable to create cursor: connection closed.")) ∧
    ∃ cur c2, connOpenNoCursors.cursor = .ok (cur, c2) ∧
      cur.client = connOpenNoCursors.client ∧ cur.closed = false ∧
      c2.cursors = connOpenNoCursors.cursors ++ [cur] :=
  ⟨(cursor_closed_check_and_registration connClosedNoCursors).1 rfl,
    (cursor_closed_check_and_registration connOpenNoCursors).2 rfl⟩
/-- C1: whenever `connect` propagates an error after the system engine
connection has been created (the error carries that connection's state),
the system connection has been closed before the error reaches the
caller. -/
theorem connect_closes_system_on_failure (args : ConnectArgs) (env : Env)
    (e : FbError) (sc : Conn)
    (h : connect args env = .err e (some sc)) : sc.is_closed = true := by
  unfold connect at h
  repeat' split at h
  all_goals try (injection h with h1 h2; injection h2 with h3)
  all_goals try (rw [← h3]; exact Conn.acloseState_is_closed _)
  all_goals simp_all

/-- Arguments with auth, account name, an explicit database and an explicit
engine name. -/
def argsEngineDb : ConnectArgs :=
  { auth := some 1, account_name := some "my_account", database := some "db1"
    engine_name := some "my_engine", api_endpoint := "api.example" }

/-- An environment whose engine resolution reports a stopped engine
attached to a different database. -/
def envStopped : Env :=
  { fix_url_schema := fun s => s
    get_system_engine_url := .ok "https://system.example"
    get_engine_url_status_db := fun _ =>
      .ok (some "https://engine.example", "Stopped", "db2") }

/-- The closed state of the system connection built from `envStopped` and
`argsEngineDb`. -/
def sysClosedStopped : Conn :=
  .mk "https://system.example" (some "db1") 0 [] true true none

/-- C1 witness: a concrete post-resolution failure (stopped engine)
propagates with the system connection closed. -/
theorem connect_closes_system_on_failure_witness :
    connect argsEngineDb envStopped =
      .err (.engineNotRunning "my_engine") (some sysClosedStopped) ∧
    sysClosedStopped.is_closed = true :=
  ⟨rfl, connect_closes_system_on_failure argsEngineDb envStopped
    (.engineNotRunning "my_engine") sysClosedStopped rfl⟩
/-- Unfolding lemma for `strFalsy` on a present string. -/
theorem strFalsy_some (s : String) : strFalsy (some s) = decide (s = "") := rfl

/-- C3: with an explicit engine name, when the resolved engine's status is
anything other than Running, `connect` raises `EngineNotRunningError` and
does not return a Connection. -/
theorem connect_engine_not_running (args : ConnectArgs) (env : Env)
    (en url : String) (u : Option String) (st adb : String)
    (ha : args.auth.isNone = false)
    (hacc : strFalsy args.account_name = false)
    (hsys : env.get_system_engine_url = .ok url)
    (hen : args.engine_name = some en) (hne : en ≠ "")
    (hres : env.get_engine_url_status_db en = .ok (u, st, adb))
    (hst : st ≠ "Running") :
    connect args env = .err (.engineNotRunning en)
      (some (Conn.acloseState
        (.mk (env.fix_url_schema url) args.database 0 [] false false none))) := by
  simp [connect, ha, hacc, hsys, hen, hres, hst, strFalsy_some, hne]

/-- C3 witness: a concrete stopped engine makes `connect` fail with the
engine-not-running error. -/
theorem connect_engine_not_running_witness :
    argsEngineDb.engine_name = some "my_engine" ∧
    envStopped.get_engine_url_status_db "my_engine" =
      .ok (some "https://engine.example", "Stopped", "db2") ∧
    connect argsEngineDb envStopped =
      .err (.engineNotRunning "my_engine")
        (some (Conn.acloseState
          (.mk "https://system.example" (some "db1") 0 [] false false none))) :=
  ⟨rfl, rfl,
    connect_engine_not_running argsEngineDb envStopped "my_engine"
      "https://system.example" (some "https://engine.example") "Stopped" "db2"
      rfl rfl rfl rfl (by decide) rfl (by decide)⟩
/-- Whether the first character list occurs at the start of the second. -/
def charsStartWith : List Char → List Char → Bool
  | [], _ => true
  | _ :: _, [] => false
  | a :: as, b :: bs => a = b && charsStartWith as bs

/-- Whether the first character list occurs anywhere inside the second. -/
def charsHasSub : List Char → List Char → Bool
  | n, [] => charsStartWith n []
  | n, b :: bs => charsStartWith n (b :: bs) || charsHasSub n bs

/-- Whether `needle` occurs as a substring of `hay`; used to state that an
error message names a database. -/
def strHasSub (hay needle : String) : Bool :=
  charsHasSub needle.data hay.data

/-- A character list starts with itself in front of any continuation. -/
theorem charsStartWith_self_append (n r : List Char) :
    charsStartWith n (n ++ r) = true := by
  induction n with
  | nil => rfl
  | cons a as ih => simp [charsStartWith, ih]

/-- A match at the start is a substring occurrence. -/
theorem charsHasSub_of_start (n h : List Char)
    (hs : charsStartWith n h = true) : charsHasSub n h = true := by
  cases h <;> simp [charsHasSub, hs]

/-- A character list occurs inside any surrounding of itself. -/
theorem charsHasSub_append (p n r : List Char) :
    charsHasSub n (p ++ (n ++ r)) = true := by
  induction p with
  | nil => exact charsHasSub_of_start _ _ (charsStartWith_self_append n r)
  | cons a as ih => simp [charsHasSub, ih]

/-- A string whose character data decomposes around the needle contains the
needle. -/
theorem strHasSub_of_data (hay needle : String) (p r : List Char)
    (h : hay.data = p ++ (needle.data ++ r)) : strHasSub hay needle = true := by
  unfold strHasSub
  rw [h]
  exact charsHasSub_append p needle.data r

/-- C2 counterexample: with an explicit engine name and an explicit
database that differs from the resolved engine's attached database, but a
stopped engine, `connect` raises `EngineNotRunningError`, not
`InterfaceError` — so the claim as stated fails at this input. -/
theorem connect_db_mismatch_counterexample :
    argsEngineDb.database = some "db1" ∧
    envStopped.get_engine_url_status_db "my_engine" =
      .ok (some "https://engine.example", "Stopped", "db2") ∧
    ("db1" : String) ≠ "db2" ∧
    connect argsEngineDb envStopped =
      .err (.engineNotRunning "my_engine") (some sysClosedStopped) ∧
    FbError.isInterfaceError (.engineNotRunning "my_engine") = false :=
  ⟨rfl, rfl, by decide, rfl, rfl⟩

/-- C2 (amended): with an explicit engine name whose resolved status is
Running and an explicit database that differs from the attached database,
`connect` raises `InterfaceError` with a message that names both the
caller-supplied database and the attached database. -/
theorem connect_db_mismatch_interface_error (args : ConnectArgs) (env : Env)
    (en url : String) (u : Option String) (adb db : String)
    (ha : args.auth.isNone = false)
    (hacc : strFalsy args.account_name = false)
    (hsys : env.get_system_engine_url = .ok url)
    (hen : args.engine_name = some en) (hne : en ≠ "")
    (hres : env.get_engine_url_status_db en = .ok (u, "Running", adb))
    (hdb : args.database = some db) (hmis : db ≠ adb) :
    ∃ msg sc, connect args env = .err (.interfaceError msg) (some sc) ∧
      strHasSub msg db = true ∧ strHasSub msg adb = true := by
  refine ⟨"Engine " ++ en ++ " is not attached to " ++ db ++ ", but to " ++ adb,
    Conn.acloseState (.mk (env.fix_url_schema url) (some db) 0 [] false false none),
    ?_, ?_, ?_⟩
  · simp [connect, ha, hacc, hsys, hen, hres, hdb, hmis, strFalsy_some, hne]
  · refine strHasSub_of_data _ _
      (("Engine " ++ en ++ " is not attached to ").data) ((", but to " ++ adb).data) ?_
    simp [String.data_append, List.append_assoc]
  · refine strHasSub_of_data _ _
      (("Engine " ++ en ++ " is not attached to " ++ db ++ ", but to ").data) [] ?_
    simp [String.data_append, List.append_assoc]

/-- C2 witness: the amended mismatch behaviour evaluated at a concrete
running engine attached to a different database. -/
theorem connect_db_mismatch_interface_error_witness :
    ∃ msg sc, connect argsEngineDb envRunning =
        .err (.interfaceError msg) (some sc) ∧
      strHasSub msg "db1" = true ∧ strHasSub msg "attached_db" = true :=
  connect_db_mismatch_interface_error argsEngineDb envRunning "my_engine"
    "https://system.example" (some "https://engine.example") "attached_db" "db1"
    rfl rfl rfl rfl (by decide) rfl rfl (by decide)
/-- C10: a successful `connect` with an explicit engine name and no
database argument returns a connection whose database field is the
attached database reported by engine resolution, not `none`. -/
theorem connect_database_from_attached (args : ConnectArgs) (env : Env)
    (en : String) (c : Conn)
    (hen : args.engine_name = some en) (hne : en ≠ "")
    (hdb : args.database = none)
    (hok : connect args env = .ok c) :
    ∃ eu st adb, env.get_engine_url_status_db en = .ok (some eu, st, adb) ∧
      c.database = some adb := by
  unfold connect at hok
  repeat' split at hok
  all_goals simp_all [strFalsy_some, Conn.database]
  all_goals subst c
  all_goals exact ⟨_, _, _, ⟨rfl, rfl, rfl⟩, rfl⟩

/-- Arguments with an explicit engine name and no database. -/
def argsEngineNoDb : ConnectArgs :=
  { auth := some 1, account_name := some "my_account", database := none
    engine_name := some "my_engine", api_endpoint := "api.example" }

/-- C10 witness: connecting without a database argument to a running engine
populates the connection's database from the attached database. -/
theorem connect_database_from_attached_witness :
    ∃ eu st adb,
      envRunning.get_engine_url_status_db "my_engine" = .ok (some eu, st, adb) ∧
      (Conn.mk "https://engine.example" (some "attached_db") 1 [] false false
        (some (.mk "https://system.example" none 0 [] false false
          none))).database = some adb :=
  connect_database_from_attached argsEngineNoDb envRunning "my_engine"
    (.mk "https://engine.example" (some "attached_db") 1 [] false false
      (some (.mk "https://system.example" none 0 [] false false none)))
    rfl (by decide) rfl rfl
/-- Executing a single statement whose parsed server response is `r`. -/
def SpecCursor.executeOne (c : SpecCursor) (r : QueryResponse) : SpecCursor :=
  c.executeBatch [parseResponse r]

/-- C5: executing a non-row-returning statement (whose response carries no
`meta`/`data`) yields `rowcount = -1` and an absent description; executing
a row-returning statement matching zero rows (response with columns in
`meta`, empty `data`, `rows: 0`) yields `rowcount = 0` and a non-empty
description. -/
theorem rowcount_description_semantics (cur : SpecCursor)
    (r1 r2 : QueryResponse) (m : List Column) (d : List Row)
    (h1 : r1.meta = none ∨ r1.data = none)
    (h2m : r2.meta = some m) (h2d : r2.data = some d)
    (h2r : r2.rows = 0) (hm : m ≠ []) :
    ((cur.executeOne r1).rowcount = -1 ∧
      (cur.executeOne r1).description = none) ∧
    ((cur.executeOne r2).rowcount = 0 ∧
      (cur.executeOne r2).description = some m ∧ m ≠ []) := by
  obtain ⟨m1, d1, rows1⟩ := r1
  obtain ⟨m2, d2, rows2⟩ := r2
  simp only at h1 h2m h2d h2r
  subst h2m
  subst h2d
  subst h2r
  have hme : m.isEmpty = false := by
    cases m with
    | nil => exact absurd rfl hm
    | cons a as => rfl
  constructor
  · rcases h1 with h | h
    · subst h
      cases d1 <;>
        simp [SpecCursor.executeOne, SpecCursor.executeBatch, parseResponse,
          SpecCursor.rowcount, SpecCursor.description]
    · subst h
      cases m1 <;>
        simp [SpecCursor.executeOne, SpecCursor.executeBatch, parseResponse,
          SpecCursor.rowcount, SpecCursor.description]
  · refine ⟨?_, ?_, hm⟩ <;>
      simp [SpecCursor.executeOne, SpecCursor.executeBatch, parseResponse,
        SpecCursor.rowcount, SpecCursor.description, hme]

/-- A response carrying no result data, as the server sends for DDL and
INSERT statements (the unit-test mock returns an empty body for these). -/
def respNoData : QueryResponse := { meta := none, data := none, rows := -1 }

/-- A zero-match response for a row-returning statement: one column, no
rows. -/
def respZeroRows : QueryResponse :=
  { meta := some [{ name := "i", typeStr := "int" }], data := some []
    rows := 0 }

/-- A freshly constructed cursor: no result sets, no SET parameters. -/
def freshCursor : SpecCursor :=
  { current := none, pending := [], set_parameters := [] }

/-- C5 witness: the two row-count regimes evaluated on concrete
responses. -/
theorem rowcount_description_semantics_witness :
    ((freshCursor.executeOne respNoData).rowcount = -1 ∧
      (freshCursor.executeOne respNoData).description = none) ∧
    ((freshCursor.executeOne respZeroRows).rowcount = 0 ∧
      (freshCursor.executeOne respZeroRows).description =
        some [{ name := "i", typeStr := "int" }] ∧
      ([{ name := "i", typeStr := "int" }] : List Column) ≠ []) :=
  rowcount_description_semantics freshCursor respNoData respZeroRows
    [{ name := "i", typeStr := "int" }] [] (Or.inl rfl) rfl rfl rfl (by decide)

/-- C6: executing a SET statement the server rejects raises
`OperationalError` and leaves the session's `set_parameters` unmodified;
with an empty parameter set the size is 0 both before and after. -/
theorem set_rejected_leaves_parameters (cur : SpecCursor) (k v : String)
    (h0 : cur.set_parameters.length = 0) :
    (∃ msg, (cur.executeSet k v false).1 = .error (.operationalError msg)) ∧
    (cur.executeSet k v false).2 = cur ∧
    (cur.executeSet k v false).2.set_parameters.length = 0 :=
  ⟨⟨_, rfl⟩, rfl, h0⟩

/-- C6 witness: a rejected `SET some_invalid_parameter = 1` on a fresh
cursor. -/
theorem set_rejected_leaves_parameters_witness :
    freshCursor.set_parameters.length = 0 ∧
    (∃ msg, (freshCursor.executeSet "some_invalid_parameter" "1" false).1 =
      .error (.operationalError msg)) ∧
    (freshCursor.executeSet "some_invalid_parameter" "1" false).2 =
      freshCursor ∧
    (freshCursor.executeSet "some_invalid_parameter" "1"
      false).2.set_parameters.length = 0 :=
  ⟨rfl,
    set_rejected_leaves_parameters freshCursor "some_invalid_parameter" "1" rfl⟩

/-- C7: pending result sets are exposed in server order by successive
`nextset` calls: a batch makes the first set current and queues the rest;
each `nextset` with a pending set returns the true sentinel and makes the
head pending set current; `nextset` with no pending set returns the `none`
sentinel; `nextset` never returns `some false`. -/
theorem nextset_order_and_sentinel (cur : SpecCursor) (rs : ResultSet)
    (rest : List ResultSet) (hp : cur.pending = rs :: rest) :
    cur.nextset = (some true,
      { cur with current := some rs, pending := rest }) ∧
    (∀ c2 : SpecCursor, c2.pending = [] → c2.nextset = (none, c2)) ∧
    (∀ c3 : SpecCursor, (c3.nextset).1 ≠ some false) ∧
    (∀ (c0 : SpecCursor) (r0 : ResultSet) (rlist : List ResultSet),
      (c0.executeBatch (r0 :: rlist)).current = some r0 ∧
      (c0.executeBatch (r0 :: rlist)).pending = rlist) := by
  refine ⟨?_, ?_, ?_, ?_⟩
  · simp [SpecCursor.nextset, hp]
  · intro c2 h
    simp [SpecCursor.nextset, h]
  · intro c3
    unfold SpecCursor.nextset
    cases c3.pending <;> simp
  · intro c0 r0 rlist
    simp [SpecCursor.executeBatch]

/-- Integer column of the multi-statement test table. -/
def colInt : Column := { name := "i", typeStr := "int" }

/-- String column of the multi-statement test table. -/
def colStr : Column := { name := "s", typeStr := "string" }

/-- The INSERT statement's result: not row-returning. -/
def rsMultiInsert : ResultSet := { columns := [], rows := [], row_count := -1 }

/-- The first SELECT's result: two rows. -/
def rsMultiSel2 : ResultSet :=
  { columns := [colInt, colStr], rows := [["1", "a"], ["2", "b"]]
    row_count := 2 }

/-- The second SELECT's result: one row. -/
def rsMultiSel1 : ResultSet :=
  { columns := [colInt, colStr], rows := [["1", "a"]], row_count := 1 }

/-- The cursor state after executing the three-statement batch. -/
def curMulti : SpecCursor :=
  freshCursor.executeBatch [rsMultiInsert, rsMultiSel2, rsMultiSel1]

/-- C7 witness: after an INSERT then a 2-row SELECT then a 1-row SELECT,
the first `nextset` exposes the 2-row set with its columns, the second the
1-row set, and the third returns the `none` sentinel. -/
theorem nextset_order_and_sentinel_witness :
    curMulti.current = some rsMultiInsert ∧
    curMulti.rowcount = -1 ∧ curMulti.description = none ∧
    curMulti.nextset = (some true,
      { curMulti with current := some rsMultiSel2, pending := [rsMultiSel1] }) ∧
    (curMulti.nextset).2.rowcount = 2 ∧
    (curMulti.nextset).2.description = some [colInt, colStr] ∧
    ((curMulti.nextset).2.nextset).1 = some true ∧
    ((curMulti.nextset).2.nextset).2.rowcount = 1 ∧
    ((curMulti.nextset).2.nextset).2.description = some [colInt, colStr] ∧
    (((curMulti.nextset).2.nextset).2.nextset).1 = none :=
  ⟨rfl, rfl, rfl,
    (nextset_order_and_sentinel curMulti rsMultiSel2 [rsMultiSel1] rfl).1,
    rfl, rfl, rfl, rfl, rfl, rfl⟩
